import Mathlib

/-
Shallow embedding of src/src/lib.rs from the make-async-stream snippet.

The Rust library adapts an async producer into a pull-style Stream through
a single thread-local slot.  The embedding models:

* Poll, the Rust std::task::Poll enum;
* Store, the thread-local STORE cell viewed through its installed pointer:
  none is the null pointer, some c is a pointer to a slot with contents c;
* Send, the one-shot send future, with Send.poll translating Send::poll
  (lines 144-164); a Rust panic is Except.error ();
* Gen, the generator future of the async move block built by make_stream:
  a producer closure is modelled by the sequence of values it sends, since
  its only suspension points are the awaited send futures; Gen.poll resumes
  the generator exactly as the compiled Rust state machine would, polling
  the send future currently awaited and moving on to the next send once it
  completes;
* AsyncStream with poll_next (lines 71-95) and size_hint (lines 97-103);
* the pointer-level guard protocol Receiver.enter and Enter.drop
  (lines 171-193), over an abstract pointer type P, used for the LIFO
  restore property.  Send.poll never changes the installed pointer itself,
  only the contents of the slot it points to, so the contents-level Store
  view used by poll_next and the pointer-level view compose.
-/

namespace AsyncStreamSnippet

/-- Rust std::task::Poll. -/
inductive Poll (α : Type) where
  | pending : Poll α
  | ready : α → Poll α

/-- Rust Poll::is_ready, used at line 84. -/
def Poll.is_ready {α : Type} : Poll α → Bool
  | .pending => false
  | .ready _ => true

/-- The thread-local STORE cell (line 106) seen through its pointer: none
models the null pointer, some c models a pointer to an installed slot whose
current contents are c. -/
abbrev Store (T : Type) := Option (Option T)

/-- The send future (lines 138-140): value is Some while armed, None once
spent. -/
structure Send (T : Type) where
  value : Option T

/-- Send::poll (lines 144-164).  A spent future completes at once without
touching the store.  An armed future reads the store: a null pointer is the
expect panic at line 155, modelled as Except.error (); an installed empty
slot receives the value and the future becomes spent; an occupied slot is
left alone and the future stays armed; in both installed cases the future
returns Pending. -/
def Send.poll {T : Type} (s : Send T) (st : Store T) :
    Except Unit (Poll Unit × Send T × Store T) :=
  match s.value with
  | none => .ok (.ready (), s, st)
  | some v =>
    match st with
    | none => .error ()
    | some none => .ok (.pending, { value := none }, some (some v))
    | some (some w) => .ok (.pending, s, some (some w))

/-- Sender (lines 127-130): only a PhantomData token, no runtime data. -/
structure Sender (T : Type)

/-- Sender::send (lines 132-136): builds an armed send future holding the
value; the sender handle itself contributes nothing to it. -/
def Sender.send {T : Type} (_tx : Sender T) (value : T) : Send T :=
  { value := some value }

/-- Receiver (lines 166-169): only a PhantomData token. -/
structure Receiver (T : Type)

/-- pair (lines 108-112). -/
def pair (T : Type) : Sender T × Receiver T :=
  (⟨⟩, ⟨⟩)

/-- TrySender (lines 114-117). -/
structure TrySender (T E : Type) where
  sender : Sender (Except E T)

/-- TrySender::send (lines 119-125): wraps the value in Ok. -/
def TrySender.send {T E : Type} (_tx : TrySender T E) (value : T) :
    Send (Except E T) :=
  { value := some (Except.ok value) }

/-- The guard returned by Receiver::enter (lines 171-175), at the pointer
level: P is the type of raw pointer values held by the STORE cell; prev is
the pointer read from the cell just before the install. -/
structure Enter (T P : Type) where
  prev : P

/-- Receiver::enter (lines 177-187): installs the pointer to dst and keeps
the previously installed pointer in the guard.  Returns the new store value
and the guard. -/
def Receiver.enter {T P : Type} (_rx : Receiver T) (store : P) (dst : P) :
    P × Enter T P :=
  (dst, { prev := store })

/-- Drop for Enter (lines 189-193): writes the saved pointer back into the
store, whatever the store holds at that moment. -/
def Enter.drop {T P : Type} (g : Enter T P) (_store : P) : P :=
  g.prev

/-- Nested installs: enter once per pointer in ds, innermost last; returns
the final store value and the guards in the order they will be dropped,
innermost first. -/
def enterAll {T P : Type} (rx : Receiver T) : P → List P → P × List (Enter T P)
  | store, [] => (store, [])
  | store, d :: ds =>
    let s1 := (Receiver.enter rx store d).1
    let g1 := (Receiver.enter rx store d).2
    let rest := enterAll rx s1 ds
    (rest.1, rest.2 ++ [g1])

/-- Drop a list of guards in order. -/
def dropAll {T P : Type} : P → List (Enter T P) → P
  | store, [] => store
  | store, g :: gs => dropAll (g.drop store) gs

/-- The generator state of the async move block built by make_stream
(lines 18-22): cur is the send future currently awaited, if any, and rest
the values the producer closure has not yet sent.  The closure is modelled
by the list of values it sends in order, its only awaits being those send
futures. -/
structure Gen (T : Type) where
  cur : Option (Send T)
  rest : List T

/-- Resuming the generator when it sits between awaits: take the next value,
build its send future as Sender::send does, and poll it; on Pending the
generator suspends awaiting that future; should the future complete, the
block continues; when no value is left the async block returns and the
generator completes. -/
def Gen.pollList {T : Type} : List T → Store T →
    Except Unit (Poll Unit × Gen T × Store T)
  | [], st => .ok (.ready (), { cur := none, rest := [] }, st)
  | v :: vs, st =>
    match Send.poll { value := some v } st with
    | .error e => .error e
    | .ok (.pending, s', st') => .ok (.pending, { cur := some s', rest := vs }, st')
    | .ok (.ready _, _, st') => Gen.pollList vs st'

/-- One resumption of the generator, that is Future::poll of the async
block: when a send future is currently awaited, poll it first; while it is
Pending the generator stays suspended on it; once it completes the block
continues with the remaining sends. -/
def Gen.poll {T : Type} (g : Gen T) (st : Store T) :
    Except Unit (Poll Unit × Gen T × Store T) :=
  match g.cur with
  | none => Gen.pollList g.rest st
  | some s =>
    match Send.poll s st with
    | .error e => .error e
    | .ok (.pending, s', st') => .ok (.pending, { cur := some s', rest := g.rest }, st')
    | .ok (.ready _, _, st') => Gen.pollList g.rest st'

/-- AsyncStream (lines 37-54): terminated flag plus the generator. -/
structure AsyncStream (T : Type) where
  done : Bool
  generator : Gen T

/-- AsyncStream::new (lines 46-54). -/
def AsyncStream.new {T : Type} (g : Gen T) : AsyncStream T :=
  { done := false, generator := g }

/-- FusedStream::is_terminated (lines 56-63). -/
def AsyncStream.is_terminated {T : Type} (s : AsyncStream T) : Bool :=
  s.done

/-- Stream::poll_next (lines 71-95).  If done, return Ready(None) at once.
Otherwise install a fresh empty slot: dst starts as None and the enter
guard makes the store some none for the duration of the generator poll,
restoring the previously installed pointer afterwards.  Then poll the
generator, read the slot back, set done when the generator completed, and
answer with the slot value if one was deposited, else Ready(None) when
done, else Pending.  The generator never replaces the installed pointer,
Send.poll only rewrites the slot contents, so the contents of st' are
exactly what dst holds after the block; the none fallback of that read is
unreachable. -/
def AsyncStream.poll_next {T : Type} (s : AsyncStream T) :
    Except Unit (Poll (Option T) × AsyncStream T) :=
  if s.done then
    .ok (.ready none, s)
  else
    match s.generator.poll (some none) with
    | .error e => .error e
    | .ok (res, g', st') =>
      let dst : Option T := match st' with | some c => c | none => none
      let s' : AsyncStream T := { done := res.is_ready, generator := g' }
      match dst with
      | some v => .ok (.ready (some v), s')
      | none => if s'.done then .ok (.ready none, s') else .ok (.pending, s')

/-- Stream::size_hint (lines 97-103). -/
def AsyncStream.size_hint {T : Type} (s : AsyncStream T) : Nat × Option Nat :=
  if s.done then (0, some 0) else (0, none)

/-- make_stream (lines 15-22) for a producer closure that sends the values
vs in order and then returns: the adapter starts active with the generator
at its beginning. -/
def make_stream {T : Type} (vs : List T) : AsyncStream T :=
  AsyncStream.new { cur := none, rest := vs }

/-- make_try_stream (lines 24-35) for a fallible producer closure that
performs the successful sends vs in order and then returns r: the async
block awaits the Ok sends of the closure and, when r is an error, awaits
one more send of that error value before returning. -/
def make_try_stream {T E : Type} (vs : List T) (r : Except E Unit) :
    AsyncStream (Except E T) :=
  AsyncStream.new
    { cur := none,
      rest := vs.map Except.ok ++
        (match r with | .ok _ => [] | .error e => [.error e]) }

/-- Outcomes of n successive pulls: each entry is the result of one
poll_next call, with Except.error () standing for a panic. -/
def pulls {T : Type} : AsyncStream T → Nat → List (Except Unit (Poll (Option T)))
  | _, 0 => []
  | s, n + 1 =>
    match s.poll_next with
    | .error e => [.error e]
    | .ok (r, s') => .ok r :: pulls s' n

/-- Once done is set, every pull returns Ready(None) and leaves the stream,
generator included, unchanged. -/
theorem done_pulls {T : Type} (g : Gen T) :
    ∀ k, pulls (⟨true, g⟩ : AsyncStream T) k
      = List.replicate k (.ok (.ready none)) := by
  intro k
  induction k with
  | zero => rfl
  | succ m ih =>
    have h : AsyncStream.poll_next (⟨true, g⟩ : AsyncStream T)
        = .ok (.ready none, ⟨true, g⟩) := rfl
    simp only [pulls, h, ih, List.replicate_succ]

/-- Two streams whose next poll agrees produce the same pull outcomes. -/
theorem pulls_congr {T : Type} {s1 s2 : AsyncStream T}
    (h : s1.poll_next = s2.poll_next) : ∀ n, pulls s1 n = pulls s2 n := by
  intro n
  cases n with
  | zero => rfl
  | succ m => simp only [pulls, h]

/-- One step of pulls when the next poll succeeds. -/
theorem pulls_succ {T : Type} (s : AsyncStream T) (n : Nat)
    (r : Poll (Option T)) (s' : AsyncStream T) (h : s.poll_next = .ok (r, s')) :
    pulls s (n + 1) = .ok r :: pulls s' n := by
  simp only [pulls, h]

/-- Pull outcomes of an active stream whose generator still has to send
every value of vs: the items of vs in order, then Ready(None) forever. -/
theorem pulls_make_aux {T : Type} :
    ∀ (vs : List T) (k : Nat),
      pulls (⟨false, ⟨none, vs⟩⟩ : AsyncStream T) (vs.length + k + 1) =
        vs.map (fun v => .ok (.ready (some v))) ++
          List.replicate (k + 1) (.ok (.ready none)) := by
  intro vs
  induction vs with
  | nil =>
    intro k
    have h1 : AsyncStream.poll_next (⟨false, ⟨none, ([] : List T)⟩⟩ : AsyncStream T)
        = .ok (.ready none, ⟨true, ⟨none, []⟩⟩) := rfl
    simp only [List.length_nil, Nat.zero_add, List.map_nil, List.nil_append, pulls, h1,
      List.replicate_succ, List.cons.injEq, true_and]
    exact done_pulls _ k
  | cons v vs ih =>
    intro k
    have hlen : (v :: vs).length + k + 1 = (vs.length + k + 1) + 1 := by
      simp only [List.length_cons]
      omega
    rw [hlen]
    have h1 : AsyncStream.poll_next (⟨false, ⟨none, v :: vs⟩⟩ : AsyncStream T)
        = .ok (.ready (some v), ⟨false, ⟨some ⟨none⟩, vs⟩⟩) := rfl
    have h2 : pulls (⟨false, ⟨some ⟨none⟩, vs⟩⟩ : AsyncStream T) (vs.length + k + 1)
        = pulls (⟨false, ⟨none, vs⟩⟩ : AsyncStream T) (vs.length + k + 1) :=
      pulls_congr rfl _
    rw [pulls_succ _ _ _ _ h1, h2, ih k]
    simp only [List.map_cons, List.cons_append]

/-- C1: a producer that performs exactly the sends vs and then completes
without failure gives, through make_stream, a stream whose pulls yield the
items of vs in send order, then end-of-sequence, and every further pull
yields end-of-sequence again (shown for any number k + 1 of extra pulls). -/
theorem make_stream_pull_sequence (T : Type) (vs : List T) (k : Nat) :
    pulls (make_stream vs) (vs.length + k + 1) =
      vs.map (fun v => .ok (.ready (some v))) ++
        List.replicate (k + 1) (.ok (.ready none)) :=
  pulls_make_aux vs k

/-- C2: a fallible producer with successful sends vs that returns the
failure e yields, through make_try_stream, the successes in order, then
exactly one failure item carrying e, then end-of-sequence forever; with a
success return it yields exactly the successes and terminates with no
failure item. -/
theorem make_try_stream_pull_sequence (T E : Type) (vs : List T) (e : E) (k : Nat) :
    pulls (make_try_stream vs (Except.error e)) (vs.length + k + 2) =
      vs.map (fun v => .ok (.ready (some (Except.ok v)))) ++
        (.ok (.ready (some (Except.error e))) ::
          List.replicate (k + 1) (.ok (.ready none))) ∧
    pulls (make_try_stream (E := E) vs (Except.ok ())) (vs.length + k + 1) =
      vs.map (fun v => .ok (.ready (some (Except.ok v)))) ++
        List.replicate (k + 1) (.ok (.ready none)) := by
  constructor
  · have h := pulls_make_aux (T := Except E T) (vs.map Except.ok ++ [Except.error e]) k
    have hlen : (vs.map Except.ok ++ [Except.error e]).length + k + 1
        = vs.length + k + 2 := by
      simp only [List.length_append, List.length_map, List.length_singleton]
      omega
    rw [hlen] at h
    have hmt : make_try_stream vs (Except.error e)
        = (⟨false, ⟨none, vs.map Except.ok ++ [Except.error e]⟩⟩ :
            AsyncStream (Except E T)) := rfl
    rw [hmt, h]
    simp [List.map_append, List.map_map, Function.comp, List.append_assoc,
      List.singleton_append]
  · have h := pulls_make_aux (T := Except E T) (vs.map Except.ok) k
    rw [List.length_map] at h
    have hmt : make_try_stream vs (Except.ok ())
        = (⟨false, ⟨none, vs.map Except.ok⟩⟩ : AsyncStream (Except E T)) := by
      simp [make_try_stream, AsyncStream.new]
    rw [hmt, h]
    simp [List.map_map, Function.comp]

/-- C3: termination is idempotent and terminal: with done set, poll_next
answers Ready(None) at once and returns the stream unchanged, generator
included, so the producer is never resumed, and any number of further
pulls yields only Ready(None). -/
theorem terminated_state_is_terminal (T : Type) (g : Gen T) (k : Nat) :
    AsyncStream.poll_next (⟨true, g⟩ : AsyncStream T)
      = .ok (.ready none, ⟨true, g⟩) ∧
    pulls (⟨true, g⟩ : AsyncStream T) k
      = List.replicate k (.ok (.ready none)) :=
  ⟨rfl, done_pulls g k⟩

/-- C4: the send state machine: armed with an empty installed slot, the
value moves into the slot, the future becomes spent and suspends; armed
with an occupied slot, it suspends without depositing and stays armed with
its value intact; spent, it completes immediately whatever the store is. -/
theorem send_poll_state_machine (T : Type) (v : T) :
    Send.poll { value := some v } (some none)
      = .ok (.pending, { value := none }, some (some v)) ∧
    (∀ w : T, Send.poll { value := some v } (some (some w))
      = .ok (.pending, { value := some v }, some (some w))) ∧
    (∀ st : Store T, Send.poll { value := none } st
      = .ok (.ready (), { value := none }, st)) :=
  ⟨rfl, fun _ => rfl, fun _ => rfl⟩

/-- C5: a pull of an active stream, whatever the generator state, returns
either exactly one item or end-of-sequence: Pending is never the outcome,
and neither is a panic, because resuming the generator against the freshly
installed empty slot either deposits a value or completes the producer. -/
theorem active_pull_item_or_end (T : Type) (g : Gen T) :
    (∃ v rest, AsyncStream.poll_next (⟨false, g⟩ : AsyncStream T)
        = .ok (.ready (some v), ⟨false, ⟨some ⟨none⟩, rest⟩⟩)) ∨
    (∃ g', AsyncStream.poll_next (⟨false, g⟩ : AsyncStream T)
        = .ok (.ready none, ⟨true, g'⟩)) := by
  obtain ⟨cur, rest⟩ := g
  cases cur with
  | none =>
    cases rest with
    | nil => exact Or.inr ⟨_, rfl⟩
    | cons v vs => exact Or.inl ⟨v, vs, rfl⟩
  | some s =>
    obtain ⟨val⟩ := s
    cases val with
    | none =>
      cases rest with
      | nil => exact Or.inr ⟨_, rfl⟩
      | cons v vs => exact Or.inl ⟨v, vs, rfl⟩
    | some w => exact Or.inl ⟨w, rest, rfl⟩

/-- C6: polling an armed send future while the thread-local store holds the
null pointer is the expect panic, modelled as Except.error (): no recovery,
no error value, no silent no-op. -/
theorem send_poll_no_slot_panics (T : Type) (v : T) :
    Send.poll { value := some v } (none : Store T) = .error () :=
  rfl

/-- Dropping guards distributes over list append. -/
theorem dropAll_append_eq {T P : Type} (xs ys : List (Enter T P)) :
    ∀ st : P, dropAll st (xs ++ ys) = dropAll (dropAll st xs) ys := by
  induction xs with
  | nil => intro st; rfl
  | cons x xs ih =>
    intro st
    simp only [List.cons_append, dropAll]
    exact ih _

/-- C7: installing a slot pointer and dropping the guard restores the
store to exactly its value before the install; nested installs, dropped in
LIFO order, restore the original store value, so after a completed pull
the thread-local pointer equals its value before the pull began. -/
theorem enter_drop_lifo (T P : Type) (rx : Receiver T) (store dst : P) :
    Enter.drop (Receiver.enter rx store dst).2 (Receiver.enter rx store dst).1
      = store ∧
    (∀ ds : List P,
      dropAll (enterAll rx store ds).1 (enterAll rx store ds).2 = store) := by
  refine ⟨rfl, ?_⟩
  intro ds
  cases ds with
  | nil => rfl
  | cons d ds =>
    show dropAll (enterAll rx d ds).1
      ((enterAll rx d ds).2 ++ [{ prev := store }]) = store
    rw [dropAll_append_eq]
    rfl

/-- C8: the size hint is (0, none) in every active state and (0, some 0)
in every terminated state, whatever the generator holds. -/
theorem size_hint_by_state (T : Type) (g : Gen T) :
    AsyncStream.size_hint (⟨false, g⟩ : AsyncStream T) = (0, none) ∧
    AsyncStream.size_hint (⟨true, g⟩ : AsyncStream T) = (0, some 0) :=
  ⟨rfl, rfl⟩

/-- C9: pairing is nominal only: the send future built from any sender is
the same, the sender from pair included, and polling it deposits into
whichever empty slot is currently installed in the store, with no check
tying the sender to the receiver that installed the slot. -/
theorem sender_pairing_is_nominal (T : Type) (v : T) (txA txB : Sender T) :
    txA.send v = txB.send v ∧
    Send.poll (((pair T).1).send v) (some none)
      = .ok (.pending, { value := none }, some (some v)) ∧
    Send.poll (txB.send v) (some none)
      = .ok (.pending, { value := none }, some (some v)) :=
  ⟨rfl, rfl, rfl⟩

/-- C10: polling a spent send future completes immediately, leaves the
store exactly as it was, and never panics, even when no slot is installed:
the result is the same for every store value, the null pointer included. -/
theorem spent_send_ignores_store (T : Type) (st : Store T) :
    Send.poll { value := none } st = .ok (.ready (), { value := none }, st) :=
  rfl

end AsyncStreamSnippet
